import Mathlib

/-!
Verification development for the garmin-export repository
(`export.py` and `filtering.py`).

The Python data values that flow through the program (parsed JSON,
dictionaries, lists, strings, numbers, `None`) are embedded as the
inductive type `PyVal`.  Dictionary access, `in` membership, truthiness
and the helper guards `present` / `absent_or_null` are modelled with the
exact control flow of the source, including the places where the Python
code can raise (`KeyError`, `TypeError`, ...), which are represented with
`Except PyErr`.  Numeric JSON payloads are modelled as integers: none of
the verified claims depends on fractional values.
-/

namespace GarminExport

/-- Python exceptions that the modelled code can raise. -/
inductive PyErr where
  | keyError
  | typeError
  | valueError
  | indexError
  | attrError
  | exception (msg : String)
  | fuel
deriving DecidableEq, Repr

/-- Python values as they appear in the program: `None`, booleans, numbers
(modelled as integers), strings, lists and dicts.  `fmtv tag args` stands
for a formatted (always non-empty, hence truthy) string produced from
`args` by a pure formatting routine of the source named by `tag`; the
claims verified here never depend on the rendered text itself. -/
inductive PyVal where
  | none_
  | bool (b : Bool)
  | num (n : Int)
  | str (s : String)
  | list (xs : List PyVal)
  | dict (entries : List (PyVal × PyVal))
  | fmtv (tag : String) (args : List PyVal)
deriving Repr

mutual

/-- Structural equality on `PyVal`, modelling Python `==` on JSON data. -/
def pyEq : PyVal → PyVal → Bool
  | .none_, .none_ => true
  | .bool a, .bool b => a = b
  | .num a, .num b => a = b
  | .str a, .str b => a = b
  | .list a, .list b => pyEqList a b
  | .dict a, .dict b => pyEqEntries a b
  | .fmtv t a, .fmtv u b => t = u && pyEqList a b
  | _, _ => false

def pyEqList : List PyVal → List PyVal → Bool
  | [], [] => true
  | a :: as_, b :: bs => pyEq a b && pyEqList as_ bs
  | _, _ => false

def pyEqEntries : List (PyVal × PyVal) → List (PyVal × PyVal) → Bool
  | [], [] => true
  | (k, v) :: as_, (k', v') :: bs => pyEq k k' && pyEq v v' && pyEqEntries as_ bs
  | _, _ => false

end

/-- Python truthiness of a value. -/
def pyTruthy : PyVal → Bool
  | .none_ => false
  | .bool b => b
  | .num n => n ≠ 0
  | .str s => s ≠ ""
  | .list xs => !xs.isEmpty
  | .dict d => !d.isEmpty
  | .fmtv _ _ => true

/-- Lookup of a key in dict entries (first match, using Python `==`). -/
def entriesGet? (d : List (PyVal × PyVal)) (k : PyVal) : Option PyVal :=
  match d.find? (fun p => pyEq p.1 k) with
  | some p => some p.2
  | none => none

/-- Python `in` (membership test): keys for dicts, elements for lists,
raises `TypeError` for `None` and numbers. -/
def pyContains (cont x : PyVal) : Except PyErr Bool :=
  match cont with
  | .dict d => .ok (d.any (fun p => pyEq p.1 x))
  | .list xs => .ok (xs.any (fun e => pyEq e x))
  | .str s => match x with
      | .str t => .ok (decide (t.toList <:+: s.toList))
      | _ => .error .typeError
  | _ => .error .typeError

/-- Python subscription `cont[k]`: dict lookup (KeyError when absent),
list indexing with negative-index wrap-around (IndexError out of range),
`TypeError` on unsubscriptable values. -/
def pyIndex (cont k : PyVal) : Except PyErr PyVal :=
  match cont with
  | .dict d =>
      match entriesGet? d k with
      | some v => .ok v
      | none => .error .keyError
  | .list xs =>
      match k with
      | .num i =>
          if 0 ≤ i ∧ i < (xs.length : Int) then
            match xs[i.toNat]? with
            | some v => .ok v
            | none => .error .indexError
          else if -(xs.length : Int) ≤ i ∧ i < 0 then
            match xs[((xs.length : Int) + i).toNat]? with
            | some v => .ok v
            | none => .error .indexError
          else .error .indexError
      | _ => .error .typeError
  | _ => .error .typeError

/-- Python list item assignment `xs[i] = v` with negative-index
wrap-around; `IndexError` out of range. -/
def pyListSet (xs : List PyVal) (i : Int) (v : PyVal) : Except PyErr (List PyVal) :=
  if 0 ≤ i ∧ i < (xs.length : Int) then .ok (xs.set i.toNat v)
  else if -(xs.length : Int) ≤ i ∧ i < 0 then .ok (xs.set ((xs.length : Int) + i).toNat v)
  else .error .indexError

/-- Python dict item assignment `d[k] = v` (replace first matching key,
else append at the end, matching dict insertion order). -/
def entriesSet (d : List (PyVal × PyVal)) (k v : PyVal) : List (PyVal × PyVal) :=
  match d with
  | [] => [(k, v)]
  | (k', v') :: rest =>
      if pyEq k' k then (k', v) :: rest
      else (k', v') :: entriesSet rest k v

/-- `export.py` line 283, `present(element, act)`:
`if not act and element not in act: return False` followed by
`return act[element]`.  Note the source tests `not act AND element not in
act`, so for a truthy container the guard is skipped and `act[element]`
is evaluated directly (raising `KeyError` when the key is absent from a
non-empty dict, and `TypeError` for `element not in None`). -/
def present (element act : PyVal) : Except PyErr PyVal :=
  if pyTruthy act = false then do
    let m ← pyContains act element
    if m = false then pure (.bool false)
    else pyIndex act element
  else pyIndex act element

/-- `export.py` line 292, `absent_or_null(element, act)`: returns `True`
when the first guard fires, `False` when `act[element]` is truthy, else
`True`; shares the `and`-instead-of-`or` guard of `present`. -/
def absent_or_null (element act : PyVal) : Except PyErr Bool :=
  if pyTruthy act = false then do
    let m ← pyContains act element
    if m = false then pure true
    else do
      let v ← pyIndex act element
      pure (pyTruthy v = false)
  else do
    let v ← pyIndex act element
    pure (pyTruthy v = false)

/-- `export.py` line 303, `from_activities_or_details`: returns
`detail[detail_container][element]` when valid, otherwise falls back to
`act[element]` (or `None`).  The `or` in the source short-circuits. -/
def from_activities_or_details (element act detail detail_container : PyVal) :
    Except PyErr PyVal := do
  let a1 ← absent_or_null detail_container detail
  let cond ← if a1 then pure true
    else do
      let dc ← pyIndex detail detail_container
      absent_or_null element dc
  if cond then do
    let a2 ← absent_or_null element act
    if a2 then pure .none_ else pyIndex act element
  else do
    let dc ← pyIndex detail detail_container
    pyIndex dc element

/-- `export.py` line 276, `value_if_found_else_key`: `some_dict.get(key, key)`. -/
def value_if_found_else_key (some_dict key : PyVal) : PyVal :=
  match some_dict with
  | .dict d => match entriesGet? d key with
      | some v => v
      | none => key
  | _ => key

/-! ## fetch_details (`export.py` lines 1025-1045)

The HTTP caller is modelled as a map from the attempt number to the
parsed JSON of the response for that attempt (`json.loads` composed with
`http_caller`; the raw response string is identified with its parsed
value).  The result carries the number of HTTP calls that were made, so
that the retry behaviour is observable. -/

def MAX_TRIES : Nat := 3

/-- One pass of the `while tries > 0` body of `fetch_details`.  Every
path through the body ends in the unconditional `return` at its end (or
in a raise), so the loop can never run a second iteration; the model
therefore needs no recursion.  When the loop guard fails the function
would fall through and implicitly return `None`. -/
def fetch_details_body (resp : Nat → PyVal) (attempt tries : Nat) :
    Except PyErr (PyVal × Nat) :=
  if 0 < tries then do
    let details := resp attempt
    let sdto ← pyIndex details (.str "summaryDTO")
    if pyTruthy sdto then
      .ok (details, attempt + 1)
    else
      if tries - 1 = 0 then
        .error (.exception "no summaryDTO after MAX_TRIES tries")
      else
        .ok (details, attempt + 1)
  else
    .ok (.none_, attempt)

/-- `fetch_details(activity_id, http_caller)`: returns the parsed details
of the activity together with the number of HTTP calls performed. -/
def fetch_details (resp : Nat → PyVal) : Except PyErr (PyVal × Nat) :=
  fetch_details_body resp 0 MAX_TRIES

/-! ## CSV projection (`export.py` lines 402-443 and 546-656)

`CsvFilter.set_column` stores a value into the row being assembled when
the value is truthy and the column is active.  The row is modelled as an
association list from column names to values (the source keys the row by
the column's display header; that renaming is a bijection fixed by the
template and does not affect any claim).  Pure formatting helpers of the
source (`str`, `round`, `hhmmss_from_seconds`, `trunc6`,
`pace_or_speed_raw`, `pace_or_speed_formatted`, `kmh_from_mps`,
`isoformat`, `strftime`, `title`, ...) produce non-empty strings and
cannot raise for the inputs reaching them; they are modelled by the
abstract-but-truthy constructor `PyVal.fmtv` tagged with the helper's
name. -/

/-- Mapping of numeric parentTypeId to names (`export.py` line 52). -/
def PARENT_TYPE_ID : PyVal := .dict [
  (.num 1, .str "running"), (.num 2, .str "cycling"), (.num 3, .str "hiking"),
  (.num 4, .str "other"), (.num 9, .str "walking"), (.num 17, .str "any"),
  (.num 26, .str "swimming"), (.num 29, .str "fitness_equipment"),
  (.num 71, .str "motorcycling"), (.num 83, .str "transition"),
  (.num 144, .str "diving"), (.num 149, .str "yoga"), (.num 165, .str "winter_sports")]

/-- Abstract one-argument formatting step (see module comment above). -/
def fmt1 (tag : String) (v : PyVal) : PyVal := .fmtv tag [v]

/-- `CsvFilter.set_column` (line 432): store the value if it is truthy
and the column is active. -/
def set_column (cols : List String) (row : List (String × PyVal))
    (name : String) (value : PyVal) : List (String × PyVal) :=
  if pyTruthy value ∧ name ∈ cols then row ++ [(name, value)] else row

/-- The recurring column pattern `F(cont[field]) if present(field, cont)
else None`. -/
def colIfPresent (cont : PyVal) (field : String) (f : PyVal → PyVal) :
    Except PyErr PyVal := do
  let p ← present (.str field) cont
  if pyTruthy p then do
    let v ← pyIndex cont (.str field)
    pure (f v)
  else pure .none_

/-- The pattern `F(outer[contKey][field]) if present(field, outer[contKey])
else None` (e.g. `details['summaryDTO']`); indexing `outer[contKey]` is
part of evaluating the condition and can raise. -/
def colFromSub (outer : PyVal) (contKey field : String) (f : PyVal → PyVal) :
    Except PyErr PyVal := do
  let cont ← pyIndex outer (.str contKey)
  colIfPresent cont field f

/-- The pattern `F(cont[field]) if cont[field] else None`. -/
def colIfTruthy (cont : PyVal) (field : String) (f : PyVal → PyVal) :
    Except PyErr PyVal := do
  let v ← pyIndex cont (.str field)
  pure (if pyTruthy v then f v else .none_)

/-- The heart-rate-zone pattern
`F(extract['hrZones'][i][field]) if present(field, extract['hrZones'][i])
else None`. -/
def hrZoneCol (extract : PyVal) (i : Int) (field : String) (f : PyVal → PyVal) :
    Except PyErr PyVal := do
  let zs ← pyIndex extract (.str "hrZones")
  let z ← pyIndex zs (.num i)
  colIfPresent z field f

/-- Python string concatenation `a + x` with a string literal on the
left; `TypeError` unless `x` is a string. -/
def pyConcatStr (a : String) (x : PyVal) : Except PyErr PyVal :=
  match x with
  | .str s => .ok (.str (a ++ s))
  | _ => .error .typeError

set_option maxRecDepth 8000 in
/-- `csv_write_record(csv_filter, extract, activity, details,
activity_type_name, event_type_name)` (`export.py` lines 546-656),
transcribed statement by statement.  The result is the assembled row
passed to `write_row`, or the Python exception raised while building
it. -/
def csv_write_record (cols : List String) (extract activity details
    activity_type_name event_type_name : PyVal) :
    Except PyErr (List (String × PyVal)) := do
  let row : List (String × PyVal) := []
  -- line 550: type_id
  let a1 ← absent_or_null (.str "activityType") activity
  let type_id ← if a1 then pure (PyVal.num 4)
    else do
      let at_ ← pyIndex activity (.str "activityType")
      pyIndex at_ (.str "typeId")
  -- line 551: parent_type_id
  let a2 ← absent_or_null (.str "activityType") activity
  let parent_type_id ← if a2 then pure (PyVal.num 4)
    else do
      let at_ ← pyIndex activity (.str "activityType")
      pyIndex at_ (.str "parentTypeId")
  -- lines 552-557: parent_type_key
  let pk ← present parent_type_id PARENT_TYPE_ID
  let parent_type_key ← if pyTruthy pk then pyIndex PARENT_TYPE_ID parent_type_id
    else pure PyVal.none_
  -- lines 559-562: coordinates from details if present
  let start_latitude ← from_activities_or_details (.str "startLatitude") activity details (.str "summaryDTO")
  let start_longitude ← from_activities_or_details (.str "startLongitude") activity details (.str "summaryDTO")
  let end_latitude ← from_activities_or_details (.str "endLatitude") activity details (.str "summaryDTO")
  let end_longitude ← from_activities_or_details (.str "endLongitude") activity details (.str "summaryDTO")
  -- line 564: id
  let aid ← pyIndex activity (.str "activityId")
  let row := set_column cols row "id" (fmt1 "str" aid)
  -- line 565: url
  let aid2 ← pyIndex activity (.str "activityId")
  let row := set_column cols row "url" (fmt1 "url_concat_str" aid2)
  -- lines 566-567
  let v ← colIfPresent activity "activityName" id
  let row := set_column cols row "activityName" v
  let v ← colIfPresent activity "description" id
  let row := set_column cols row "description" v
  -- lines 568-569
  let st ← pyIndex extract (.str "start_time_with_offset")
  let row := set_column cols row "startTimeIso" (fmt1 "isoformat" st)
  let st ← pyIndex extract (.str "start_time_with_offset")
  let row := set_column cols row "startTime1123" (fmt1 "strftime_1123" st)
  -- line 570
  let v ← colIfPresent activity "beginTimestamp" (fmt1 "str")
  let row := set_column cols row "startTimeMillis" v
  -- line 571
  let v ← colFromSub details "summaryDTO" "startTimeLocal" id
  let row := set_column cols row "startTimeRaw" v
  -- lines 572-573
  let v ← colIfTruthy extract "end_time_with_offset" (fmt1 "isoformat")
  let row := set_column cols row "endTimeIso" v
  let v ← colIfTruthy extract "end_time_with_offset" (fmt1 "strftime_1123")
  let row := set_column cols row "endTime1123" v
  -- line 574
  let p ← present (.str "beginTimestamp") activity
  let v ← if pyTruthy p then do
      let bts ← pyIndex activity (.str "beginTimestamp")
      let es ← pyIndex extract (.str "elapsed_seconds")
      pure (PyVal.fmtv "str_plus_1000ms" [bts, es])
    else pure PyVal.none_
  let row := set_column cols row "endTimeMillis" v
  -- lines 575-576
  let v ← colIfPresent activity "duration" (fmt1 "str_round3")
  let row := set_column cols row "durationRaw" v
  let v ← colIfPresent activity "duration" (fmt1 "hhmmss_from_seconds_round")
  let row := set_column cols row "duration" v
  -- lines 577-578
  let v ← colIfTruthy extract "elapsed_duration" (fmt1 "str_round3")
  let row := set_column cols row "elapsedDurationRaw" v
  let v ← colIfTruthy extract "elapsed_duration" (fmt1 "hhmmss_from_seconds_round")
  let row := set_column cols row "elapsedDuration" v
  -- lines 579-580
  let v ← colFromSub details "summaryDTO" "movingDuration" (fmt1 "str_round3")
  let row := set_column cols row "movingDurationRaw" v
  let v ← colFromSub details "summaryDTO" "movingDuration" (fmt1 "hhmmss_from_seconds_round")
  let row := set_column cols row "movingDuration" v
  -- line 581
  let v ← colIfPresent activity "distance" (fmt1 "format_km_5")
  let row := set_column cols row "distanceRaw" v
  -- line 582
  let v ← colFromSub details "summaryDTO" "averageSpeed" (fmt1 "kmh_from_mps")
  let row := set_column cols row "averageSpeedRaw" v
  -- lines 583-584
  let v ← colIfPresent activity "averageSpeed"
    (fun s => .fmtv "trunc6_pace_or_speed_raw" [type_id, parent_type_id, s])
  let row := set_column cols row "averageSpeedPaceRaw" v
  let v ← colIfPresent activity "averageSpeed"
    (fun s => .fmtv "pace_or_speed_formatted" [type_id, parent_type_id, s])
  let row := set_column cols row "averageSpeedPace" v
  -- lines 585-587
  let v ← colFromSub details "summaryDTO" "averageMovingSpeed" (fmt1 "kmh_from_mps")
  let row := set_column cols row "averageMovingSpeedRaw" v
  let v ← colFromSub details "summaryDTO" "averageMovingSpeed"
    (fun s => .fmtv "trunc6_pace_or_speed_raw" [type_id, parent_type_id, s])
  let row := set_column cols row "averageMovingSpeedPaceRaw" v
  let v ← colFromSub details "summaryDTO" "averageMovingSpeed"
    (fun s => .fmtv "pace_or_speed_formatted" [type_id, parent_type_id, s])
  let row := set_column cols row "averageMovingSpeedPace" v
  -- lines 588-590
  let v ← colFromSub details "summaryDTO" "maxSpeed" (fmt1 "kmh_from_mps")
  let row := set_column cols row "maxSpeedRaw" v
  let v ← colFromSub details "summaryDTO" "maxSpeed"
    (fun s => .fmtv "trunc6_pace_or_speed_raw" [type_id, parent_type_id, s])
  let row := set_column cols row "maxSpeedPaceRaw" v
  let v ← colFromSub details "summaryDTO" "maxSpeed"
    (fun s => .fmtv "pace_or_speed_formatted" [type_id, parent_type_id, s])
  let row := set_column cols row "maxSpeedPace" v
  -- lines 591-602: elevation columns; the Uncorr/Corr variants first
  -- evaluate `activity['elevationCorrected']` (short-circuit `and`)
  let v ← colFromSub details "summaryDTO" "elevationLoss" (fmt1 "str_round2")
  let row := set_column cols row "elevationLoss" v
  let ec ← pyIndex activity (.str "elevationCorrected")
  let v ← if pyTruthy ec then pure PyVal.none_
    else colFromSub details "summaryDTO" "elevationLoss" (fmt1 "str_round2")
  let row := set_column cols row "elevationLossUncorr" v
  let ec ← pyIndex activity (.str "elevationCorrected")
  let v ← if pyTruthy ec then
      colFromSub details "summaryDTO" "elevationLoss" (fmt1 "str_round2")
    else pure PyVal.none_
  let row := set_column cols row "elevationLossCorr" v
  let v ← colFromSub details "summaryDTO" "elevationGain" (fmt1 "str_round2")
  let row := set_column cols row "elevationGain" v
  let ec ← pyIndex activity (.str "elevationCorrected")
  let v ← if pyTruthy ec then pure PyVal.none_
    else colFromSub details "summaryDTO" "elevationGain" (fmt1 "str_round2")
  let row := set_column cols row "elevationGainUncorr" v
  let ec ← pyIndex activity (.str "elevationCorrected")
  let v ← if pyTruthy ec then
      colFromSub details "summaryDTO" "elevationGain" (fmt1 "str_round2")
    else pure PyVal.none_
  let row := set_column cols row "elevationGainCorr" v
  let v ← colFromSub details "summaryDTO" "minElevation" (fmt1 "str_round2")
  let row := set_column cols row "minElevation" v
  let ec ← pyIndex activity (.str "elevationCorrected")
  let v ← if pyTruthy ec then pure PyVal.none_
    else colFromSub details "summaryDTO" "minElevation" (fmt1 "str_round2")
  let row := set_column cols row "minElevationUncorr" v
  let ec ← pyIndex activity (.str "elevationCorrected")
  let v ← if pyTruthy ec then
      colFromSub details "summaryDTO" "minElevation" (fmt1 "str_round2")
    else pure PyVal.none_
  let row := set_column cols row "minElevationCorr" v
  let v ← colFromSub details "summaryDTO" "maxElevation" (fmt1 "str_round2")
  let row := set_column cols row "maxElevation" v
  let ec ← pyIndex activity (.str "elevationCorrected")
  let v ← if pyTruthy ec then pure PyVal.none_
    else colFromSub details "summaryDTO" "maxElevation" (fmt1 "str_round2")
  let row := set_column cols row "maxElevationUncorr" v
  let ec ← pyIndex activity (.str "elevationCorrected")
  let v ← if pyTruthy ec then
      colFromSub details "summaryDTO" "maxElevation" (fmt1 "str_round2")
    else pure PyVal.none_
  let row := set_column cols row "maxElevationCorr" v
  -- line 603
  let ec ← pyIndex activity (.str "elevationCorrected")
  let row := set_column cols row "elevationCorrected"
    (if pyTruthy ec then .str "true" else .str "false")
  -- lines 605-608
  let v ← colFromSub details "summaryDTO" "maxHR" (fmt1 "str")
  let row := set_column cols row "maxHRRaw" v
  let v ← colIfPresent activity "maxHR" (fmt1 "format_0f")
  let row := set_column cols row "maxHR" v
  let v ← colFromSub details "summaryDTO" "averageHR" (fmt1 "str")
  let row := set_column cols row "averageHRRaw" v
  let v ← colIfPresent activity "averageHR" (fmt1 "format_0f")
  let row := set_column cols row "averageHR" v
  -- lines 609-610
  let v ← colFromSub details "summaryDTO" "calories" (fmt1 "str")
  let row := set_column cols row "caloriesRaw" v
  let v ← colFromSub details "summaryDTO" "calories" (fmt1 "format_0f")
  let row := set_column cols row "calories" v
  -- line 611
  let v ← colIfPresent activity "vO2MaxValue" (fmt1 "str")
  let row := set_column cols row "vo2max" v
  -- lines 612-613
  let v ← colFromSub details "summaryDTO" "trainingEffect" (fmt1 "str_round2")
  let row := set_column cols row "aerobicEffect" v
  let v ← colFromSub details "summaryDTO" "anaerobicTrainingEffect" (fmt1 "str_round2")
  let row := set_column cols row "anaerobicEffect" v
  -- lines 614-623: heart-rate zone columns
  let v ← hrZoneCol extract 0 "zoneLowBoundary" (fmt1 "str")
  let row := set_column cols row "hrZone1Low" v
  let v ← hrZoneCol extract 0 "secsInZone" (fmt1 "format_0f")
  let row := set_column cols row "hrZone1Seconds" v
  let v ← hrZoneCol extract 1 "zoneLowBoundary" (fmt1 "str")
  let row := set_column cols row "hrZone2Low" v
  let v ← hrZoneCol extract 1 "secsInZone" (fmt1 "format_0f")
  let row := set_column cols row "hrZone2Seconds" v
  let v ← hrZoneCol extract 2 "zoneLowBoundary" (fmt1 "str")
  let row := set_column cols row "hrZone3Low" v
  let v ← hrZoneCol extract 2 "secsInZone" (fmt1 "format_0f")
  let row := set_column cols row "hrZone3Seconds" v
  let v ← hrZoneCol extract 3 "zoneLowBoundary" (fmt1 "str")
  let row := set_column cols row "hrZone4Low" v
  let v ← hrZoneCol extract 3 "secsInZone" (fmt1 "format_0f")
  let row := set_column cols row "hrZone4Seconds" v
  let v ← hrZoneCol extract 4 "zoneLowBoundary" (fmt1 "str")
  let row := set_column cols row "hrZone5Low" v
  let v ← hrZoneCol extract 4 "secsInZone" (fmt1 "format_0f")
  let row := set_column cols row "hrZone5Seconds" v
  -- lines 624-626
  let v ← colFromSub details "summaryDTO" "averageRunCadence" (fmt1 "str_round2")
  let row := set_column cols row "averageRunCadence" v
  let v ← colFromSub details "summaryDTO" "maxRunCadence" (fmt1 "str")
  let row := set_column cols row "maxRunCadence" v
  let v ← colFromSub details "summaryDTO" "strideLength" (fmt1 "str_round2")
  let row := set_column cols row "strideLength" v
  -- lines 627-630
  let v ← colIfPresent activity "steps" (fmt1 "str")
  let row := set_column cols row "steps" v
  let v ← colIfPresent activity "averageBikingCadenceInRevPerMinute" (fmt1 "str")
  let row := set_column cols row "averageCadence" v
  let v ← colIfPresent activity "maxBikingCadenceInRevPerMinute" (fmt1 "str")
  let row := set_column cols row "maxCadence" v
  let v ← colIfPresent activity "strokes" (fmt1 "str")
  let row := set_column cols row "strokes" v
  -- lines 631-633
  let v ← colFromSub details "summaryDTO" "averageTemperature" (fmt1 "str")
  let row := set_column cols row "averageTemperature" v
  let v ← colFromSub details "summaryDTO" "minTemperature" (fmt1 "str")
  let row := set_column cols row "minTemperature" v
  let v ← colFromSub details "summaryDTO" "maxTemperature" (fmt1 "str")
  let row := set_column cols row "maxTemperature" v
  -- lines 634-635
  let v ← colIfTruthy extract "device" id
  let row := set_column cols row "device" v
  let v ← colIfTruthy extract "gear" id
  let row := set_column cols row "gear" v
  -- line 636
  let v ← colFromSub activity "activityType" "typeKey" (fmt1 "title")
  let row := set_column cols row "activityTypeKey" v
  -- line 637
  let p ← present (.str "activityType") activity
  let v ← if pyTruthy p then do
      let at_ ← pyIndex activity (.str "activityType")
      let tk ← pyIndex at_ (.str "typeKey")
      let key ← pyConcatStr "activity_type_" tk
      pure (value_if_found_else_key activity_type_name key)
    else pure PyVal.none_
  let row := set_column cols row "activityType" v
  -- line 638
  let v ← if pyTruthy parent_type_key then do
      let key ← pyConcatStr "activity_type_" parent_type_key
      pure (value_if_found_else_key activity_type_name key)
    else pure PyVal.none_
  let row := set_column cols row "activityParent" v
  -- line 639
  let v ← colFromSub activity "eventType" "typeKey" (fmt1 "title")
  let row := set_column cols row "eventTypeKey" v
  -- line 640
  let p ← present (.str "eventType") activity
  let v ← if pyTruthy p then do
      let ev ← pyIndex activity (.str "eventType")
      let tk ← pyIndex ev (.str "typeKey")
      pure (value_if_found_else_key event_type_name tk)
    else pure PyVal.none_
  let row := set_column cols row "eventType" v
  -- line 641
  let v ← colFromSub details "accessControlRuleDTO" "typeKey" id
  let row := set_column cols row "privacy" v
  -- line 642: double guard with short-circuit `and`
  let md ← pyIndex details (.str "metadataDTO")
  let p1 ← present (.str "fileFormat") md
  let v ← if pyTruthy p1 then do
      let ff ← pyIndex md (.str "fileFormat")
      let p2 ← present (.str "formatKey") ff
      if pyTruthy p2 then pyIndex ff (.str "formatKey")
      else pure PyVal.none_
    else pure PyVal.none_
  let row := set_column cols row "fileFormat" v
  -- line 643
  let v ← colFromSub details "timeZoneUnitDTO" "timeZone" id
  let row := set_column cols row "tz" v
  -- line 644
  let st ← pyIndex extract (.str "start_time_with_offset")
  let row := set_column cols row "tzOffset" (fmt1 "isoformat_last6" st)
  -- line 645
  let v ← colIfPresent details "locationName" id
  let row := set_column cols row "locationName" v
  -- lines 646-653
  let row := set_column cols row "startLatitudeRaw"
    (if pyTruthy start_latitude then fmt1 "str" start_latitude else .none_)
  let row := set_column cols row "startLatitude"
    (if pyTruthy start_latitude then fmt1 "trunc6" start_latitude else .none_)
  let row := set_column cols row "startLongitudeRaw"
    (if pyTruthy start_longitude then fmt1 "str" start_longitude else .none_)
  let row := set_column cols row "startLongitude"
    (if pyTruthy start_longitude then fmt1 "trunc6" start_longitude else .none_)
  let row := set_column cols row "endLatitudeRaw"
    (if pyTruthy end_latitude then fmt1 "str" end_latitude else .none_)
  let row := set_column cols row "endLatitude"
    (if pyTruthy end_latitude then fmt1 "trunc6" end_latitude else .none_)
  let row := set_column cols row "endLongitudeRaw"
    (if pyTruthy end_longitude then fmt1 "str" end_longitude else .none_)
  let row := set_column cols row "endLongitude"
    (if pyTruthy end_longitude then fmt1 "trunc6" end_longitude else .none_)
  -- line 654
  let v ← colFromSub extract "samples" "metricsCount" (fmt1 "str")
  let row := set_column cols row "sampleCount" v
  -- line 656: write_row flushes the assembled row
  pure row

/-! ## Heart-rate zones (`export.py` lines 71 and 702-725)

`load_zones` starts with `zones = HR_ZONES_EMPTY`, which in Python binds
the module-level list itself (no copy); the subsequent index assignments
mutate that shared list.  The model therefore threads the current
contents of the module-level list explicitly: `load_zones` takes the
contents before the call and returns the pair (contents after the call,
returned array) — and the two components are always the same list, which
is how the aliasing shows up observationally.  The zones response is the
parsed JSON array `zones_raw`. -/

/-- `HR_ZONES_EMPTY = [None]*5` (line 71): the initial contents of the
module-level list. -/
def HR_ZONES_EMPTY : List PyVal := [.none_, .none_, .none_, .none_, .none_]

/-- One iteration of the `for raw_zone in zones_raw` loop (lines 719-724),
with the three in-place mutations `zones[index] = {}`,
`zones[index]['secsInZone'] = ...`, `zones[index]['zoneLowBoundary'] = ...`
performed in source order. -/
def load_zones_step (z : List PyVal) (rz : PyVal) : Except PyErr (List PyVal) := do
  let p ← present (.str "zoneNumber") rz
  if pyTruthy p then do
    let zn ← pyIndex rz (.str "zoneNumber")
    let idx ← match zn with
      | .num n => pure (n - 1)
      | _ => .error .typeError
    let z ← pyListSet z idx (.dict [])
    let s ← pyIndex rz (.str "secsInZone")
    let z ← pyListSet z idx (.dict [(.str "secsInZone", s)])
    let lo ← pyIndex rz (.str "zoneLowBoundary")
    let z ← pyListSet z idx
      (.dict [(.str "secsInZone", s), (.str "zoneLowBoundary", lo)])
    pure z
  else pure z

/-- The `for raw_zone in zones_raw` loop. -/
def load_zones_go : List PyVal → List PyVal → Except PyErr (List PyVal)
  | z, [] => .ok z
  | z, rz :: rest => do
      let z' ← load_zones_step z rz
      load_zones_go z' rest

/-- `load_zones(activity_id, start_time_seconds, args, http_caller,
file_writer)` (lines 702-725).  `st` is the contents of the module-level
`HR_ZONES_EMPTY` list when the call starts; the result pairs the contents
after the call with the returned array (one and the same list). -/
def load_zones (st : List PyVal) (zones_raw : List PyVal) :
    Except PyErr (List PyVal × List PyVal) :=
  if zones_raw.isEmpty then
    .ok (st, st)
  else do
    let final ← load_zones_go st zones_raw
    .ok (final, final)

/-! ## Download ledger (`filtering.py` lines 39-79)

`update_download_stats` reads the ledger file, repairs malformed
contents, inserts the activity id if it is new, sorts, and rewrites the
file.  The file is modelled by `LedgerFile`; Python's `list.sort()` on a
list of strings is ascending lexicographic sort. -/

/-- The persisted state of `downloaded_ids.json`. -/
inductive LedgerFile where
  | missing
  | malformed
  | stored (v : PyVal)
deriving Repr

/-- `list.append` (AttributeError on non-lists). -/
def pyAppend (v x : PyVal) : Except PyErr (List PyVal) :=
  match v with
  | .list xs => .ok (xs ++ [x])
  | _ => .error .attrError

/-- Checks that every element is a string, returning the strings. -/
def allStrings : List PyVal → Option (List String)
  | [] => some []
  | .str s :: t => (allStrings t).map (s :: ·)
  | _ => none

/-- Python `list.sort()` at the single call site of `filtering.py`:
ascending lexicographic sort of a list of strings (every list reaching
the call holds only strings; mixed-type lists would raise `TypeError`,
modelled likewise). -/
def pySortList (xs : List PyVal) : Except PyErr (List PyVal) :=
  match allStrings xs with
  | some ss => .ok ((ss.insertionSort (· ≤ ·)).map .str)
  | none => .error .typeError

/-- `update_download_stats(activity_id, dir)` (`filtering.py` lines
39-79) as a transformer of the persisted ledger file. -/
def update_download_stats (activity_id : String) (st : LedgerFile) :
    Except PyErr LedgerFile := do
  -- first time handling: create the file containing json.dumps("")
  let st1 : LedgerFile := match st with
    | .missing => .stored (.str "")
    | other => other
  -- read the file; unparseable JSON degrades to obj = ""
  let obj : PyVal := match st1 with
    | .stored v => v
    | _ => .str ""
  -- sanitize wrong formats
  let obj : PyVal := match obj with
    | .dict d => .dict d
    | _ => .dict []
  let obj : PyVal := match obj with
    | .dict d =>
        if d.any (fun p => pyEq p.1 (.str "ids")) then .dict d
        else .dict (d ++ [(.str "ids", .list [])])
    | other => other
  let ids ← pyIndex obj (.str "ids")
  let already ← pyContains ids (.str activity_id)
  if already then
    .ok st1
  else do
    let ids ← pyAppend ids (.str activity_id)
    let ids ← pySortList ids
    let obj : PyVal := match obj with
      | .dict d => .dict (entriesSet d (.str "ids") (.list ids))
      | other => other
    .ok (.stored obj)

/-- A sequence of `update_download_stats` calls (each successfully
downloaded activity triggers one). -/
def runUpdates : LedgerFile → List String → Except PyErr LedgerFile
  | st, [] => .ok st
  | st, a :: rest => do
      let st' ← update_download_stats a st
      runUpdates st' rest

/-- The ledger shape written by `update_download_stats`. -/
def mkLedger (l : List String) : PyVal :=
  .dict [(.str "ids", .list (l.map .str))]

/-- Decidable statement of the ledger invariant: the persisted object is
a dict whose `ids` entry is a list of strings, sorted ascending and
without duplicates. -/
def goodLedger (st : LedgerFile) : Bool :=
  match st with
  | .stored (.dict [(.str "ids", .list ids)]) =>
      match allStrings ids with
      | some l => decide (l.Sorted (· ≤ ·)) && decide l.Nodup
      | none => false
  | _ => false

/-- `.ok` outcome satisfying the ledger invariant. -/
def ledgerOkGood (r : Except PyErr LedgerFile) : Bool :=
  match r with
  | .ok st => goodLedger st
  | .error _ => false

/-! ## Exclusion file (`filtering.py` lines 17-36 and `export.py`
lines 1088-1094) -/

/-- State of the file named by `--exclude`. -/
inductive ExcludeFile where
  | notExists
  | notAFile
  | malformed
  | stored (v : PyVal)
deriving Repr

/-- `read_exclude(file)` (`filtering.py` lines 17-36): the three failure
branches print a diagnostic and `return` (i.e. `None`); a parsed JSON
object is asked for its `'ids'` entry — a `KeyError` (or a `TypeError`
for a non-dict) is NOT caught by the `except (JSONDecodeError,
ValueError)` handler and propagates. -/
def read_exclude (f : ExcludeFile) : Except PyErr (Option PyVal) :=
  match f with
  | .notExists => .ok none
  | .notAFile => .ok none
  | .malformed => .ok none
  | .stored v => (pyIndex v (.str "ids")).map some

/-- How `main` terminates early (`sys.exit`) or crashes (uncaught
exception). -/
inductive MainAbort where
  | exit (code : Nat)
  | uncaught (e : PyErr)
deriving DecidableEq, Repr

/-- `main`'s exclusion-list setup (`export.py` lines 1088-1094): when
`--exclude` was given, `read_exclude` is called and a `None` result makes
the run `sys.exit(1)`; with no `--exclude` the list is empty. -/
def mainExcludeGate (arg : Option ExcludeFile) :
    Except MainAbort PyVal :=
  match arg with
  | none => .ok (.list [])
  | some f =>
      match read_exclude f with
      | .error e => .error (.uncaught e)
      | .ok none => .error (.exit 1)
      | .ok (some v) => .ok v

/-! ## Activity-list annotation (`export.py` lines 957-972) -/

/-- Python `str()` for the values used as activity IDs (numbers and
strings); other shapes never reach the call sites verified here. -/
def pyStrOf : PyVal → String
  | .num n => toString n
  | .str s => s
  | .bool b => if b then "True" else "False"
  | .none_ => "None"
  | _ => "object"

/-- The `for index, a in enumerate(activities)` loop of
`annotate_activity_list` with the running index.  Note that the
exclusion membership test is reached only when `index >= start - 1`. -/
def annotate_go (start : Int) (exclude_list : PyVal) :
    Nat → List PyVal → Except PyErr (List (Nat × Char × PyVal))
  | _, [] => .ok []
  | i, a :: rest => do
      let act ← if (i : Int) < start - 1 then pure 's'
        else do
          let idv ← pyIndex a (.str "activityId")
          let m ← pyContains exclude_list (.str (pyStrOf idv))
          pure (if m then 'e' else 'd')
      let tail ← annotate_go start exclude_list (i + 1) rest
      pure ((i, act, a) :: tail)

/-- `annotate_activity_list(activities, start, exclude_list)`: each
activity is annotated with the action `'s'` (skip), `'e'` (exclude) or
`'d'` (download). -/
def annotate_activity_list (activities : List PyVal) (start : Int)
    (exclude_list : PyVal) : Except PyErr (List (Nat × Char × PyVal)) :=
  annotate_go start exclude_list 0 activities

/-! ## Multisport expansion (`export.py` lines 1002-1023 and 1048-1071)

The HTTP caller is modelled as a map `resp : activity-id → attempt →
parsed details`, composed with `fetch_details` exactly as in the source.
The `for idx, child_summary in enumerate(activity_summaries)` loop over
the list that is being mutated by `insert(idx + 1, ...)` is modelled as a
zipper (processed prefix, reversed, and remaining suffix): inserting at
`idx + 1` is inserting at position 0 of the suffix after the current
element, and the iteration resumes at index `idx + 1`, i.e. at the first
inserted child.  The recursion is fuelled because synthesized children
could themselves be multisport; `.error .fuel` is a model artefact that
never occurs in the verified runs. -/

/-- `value if present(field, cont) else None` (plain value copy). -/
def ifPresentVal (cont : PyVal) (field : String) : Except PyErr PyVal := do
  let p ← present (.str field) cont
  if pyTruthy p then pyIndex cont (.str field) else pure .none_

/-- `d[k1][k2] if k1 in d and present(k2, d[k1]) else None`. -/
def subPresentOrNone (d : PyVal) (k1 k2 : String) : Except PyErr PyVal := do
  let m1 ← pyContains d (.str k1)
  if m1 then do
    let c ← pyIndex d (.str k1)
    let p ← present (.str k2) c
    if pyTruthy p then pyIndex c (.str k2) else pure .none_
  else pure .none_

/-- `d[k1][k2] if k1 in d and k2 in d[k1] else None`. -/
def subKeyOrNone (d : PyVal) (k1 k2 : String) : Except PyErr PyVal := do
  let m1 ← pyContains d (.str k1)
  if m1 then do
    let c ← pyIndex d (.str k1)
    let m2 ← pyContains c (.str k2)
    if m2 then pyIndex c (.str k2) else pure .none_
  else pure .none_

/-- `copy_details_to_summary(summary, details)` (`export.py` lines
1048-1071): builds the synthetic child summary from the child's details
(the `summary` argument is a fresh `dict()` at the call site). -/
def copy_details_to_summary (details : PyVal) : Except PyErr PyVal := do
  let aid ← pyIndex details (.str "activityId")
  let aname ← pyIndex details (.str "activityName")
  let desc ← ifPresentVal details "description"
  let tyId ← subPresentOrNone details "activityTypeDTO" "typeId"
  let tyKey ← subPresentOrNone details "activityTypeDTO" "typeKey"
  let tyParent ← subPresentOrNone details "activityTypeDTO" "parentTypeId"
  let evKey ← subPresentOrNone details "eventType" "typeKey"
  let stl ← subKeyOrNone details "summaryDTO" "startTimeLocal"
  let stg ← subKeyOrNone details "summaryDTO" "startTimeGMT"
  let dur ← subKeyOrNone details "summaryDTO" "duration"
  let dist ← subKeyOrNone details "summaryDTO" "distance"
  let aspd ← subKeyOrNone details "summaryDTO" "averageSpeed"
  let mhr ← subKeyOrNone details "summaryDTO" "maxHR"
  let ahr ← subKeyOrNone details "summaryDTO" "averageHR"
  let ec ← subKeyOrNone details "metadataDTO" "elevationCorrected"
  pure (.dict [
    (.str "activityId", aid),
    (.str "activityName", aname),
    (.str "description", desc),
    (.str "activityType", .dict [(.str "typeId", tyId), (.str "typeKey", tyKey),
      (.str "parentTypeId", tyParent)]),
    (.str "eventType", .dict [(.str "typeKey", evKey)]),
    (.str "startTimeLocal", stl),
    (.str "startTimeGMT", stg),
    (.str "duration", dur),
    (.str "distance", dist),
    (.str "averageSpeed", aspd),
    (.str "maxHR", mhr),
    (.str "averageHR", ahr),
    (.str "elevationCorrected", ec)])

/-- Line 1011: `type_key = None if absent_or_null('activityType',
child_summary) else child_summary['activityType']['typeKey']`. -/
def summaryTypeKey (s : PyVal) : Except PyErr PyVal := do
  let a ← absent_or_null (.str "activityType") s
  if a then pure .none_
  else do
    let at_ ← pyIndex s (.str "activityType")
    pyIndex at_ (.str "typeKey")

/-- Line 1015: `details['metadataDTO']['childIds'] if 'metadataDTO' in
details and 'childIds' in details['metadataDTO'] else None`. -/
def childIdsOf (details : PyVal) : Except PyErr PyVal :=
  subKeyOrNone details "metadataDTO" "childIds"

/-- Fetch a child's details and synthesize its summary (lines 1018-1022). -/
def synthChild (resp : PyVal → Nat → PyVal) (child_id : PyVal) :
    Except PyErr PyVal := do
  let pr ← fetch_details (resp child_id)
  copy_details_to_summary pr.1

/-- The `for child_id in reversed(child_ids)` loop (lines 1017-1023): the
argument list is already reversed; each synthesized child is inserted at
`idx + 1`, i.e. at position 0 of the suffix following the parent. -/
def insertChildren (resp : PyVal → Nat → PyVal) :
    List PyVal → List PyVal → Except PyErr (List PyVal)
  | [], rest => .ok rest
  | c :: cs, rest => do
      let s ← synthChild resp c
      insertChildren resp cs (List.insertIdx 0 s rest)

/-- The enumerate loop of `fetch_multisports` as a fuelled zipper; `acc`
holds the already-visited elements in reverse. -/
def fetch_multisports_go (resp : PyVal → Nat → PyVal) :
    Nat → List PyVal → List PyVal → Except PyErr (List PyVal)
  | _, acc, [] => .ok acc.reverse
  | 0, _, _ :: _ => .error .fuel
  | fuel + 1, acc, s :: rest => do
      let tk ← summaryTypeKey s
      if pyEq tk (.str "multi_sport") then do
        let aid ← pyIndex s (.str "activityId")
        let pr ← fetch_details (resp aid)
        let cids ← childIdsOf pr.1
        match cids with
        | .list l => do
            let rest' ← insertChildren resp l.reverse rest
            fetch_multisports_go resp fuel (s :: acc) rest'
        | _ => .error .typeError
      else fetch_multisports_go resp fuel (s :: acc) rest

/-- `fetch_multisports(activity_summaries, http_caller, args)`:
multisport parents get their synthesized children spliced in right after
them; the list is otherwise unchanged. -/
def fetch_multisports (resp : PyVal → Nat → PyVal) (fuel : Nat)
    (activity_summaries : List PyVal) : Except PyErr (List PyVal) :=
  fetch_multisports_go resp fuel [] activity_summaries

/-! ## Timestamps (`export.py` lines 319-363)

A naive `datetime` is modelled by its count of microseconds since
1970-01-01 00:00:00 (this determines, and is determined by, the civil
fields used by the source).  The ISO parse follows the regex of
`datetime_from_iso` — anchored at the start, trailing garbage ignored,
greedy fractional group — composed with `strptime`'s range validation.
`FixedOffset` stores an offset in whole minutes; `offset_date_time`
returns the local instant together with that stored offset. -/

def isLeap (y : Int) : Bool := y % 4 = 0 ∧ (y % 100 ≠ 0 ∨ y % 400 = 0)

def daysInMonth (y m : Int) : Int :=
  if m = 2 then (if isLeap y then 29 else 28)
  else if m = 4 ∨ m = 6 ∨ m = 9 ∨ m = 11 then 30
  else 31

/-- Days from 1970-01-01 to the given civil date (standard civil-days
computation, floor conventions). -/
def daysFromCivil (y m d : Int) : Int :=
  let y' := if m ≤ 2 then y - 1 else y
  let era := y'.fdiv 400
  let yoe := y' - era * 400
  let mp := (m + 9) % 12
  let doy := (153 * mp + 2).fdiv 5 + d - 1
  let doe := yoe * 365 + yoe.fdiv 4 - yoe.fdiv 100 + doy
  era * 146097 + doe - 719468

def digitsVal : List Char → Nat
  | [] => 0
  | c :: cs => digitsVal cs + (c.toNat - 48) * 10 ^ cs.length

def parseDigitsAux : Nat → Nat → List Char → Option (Nat × List Char)
  | 0, acc, cs => some (acc, cs)
  | n + 1, acc, c :: cs =>
      if c.isDigit then parseDigitsAux n (acc * 10 + (c.toNat - 48)) cs else none
  | _ + 1, _, [] => none

def parseNDigits (n : Nat) (cs : List Char) : Option (Nat × List Char) :=
  parseDigitsAux n 0 cs

def expectChar (c : Char) : List Char → Option (List Char)
  | d :: cs => if d = c then some cs else none
  | [] => none

/-- Greedy `\d+`. -/
def takeDigits : List Char → (List Char × List Char)
  | [] => ([], [])
  | c :: cs =>
      if c.isDigit then
        let (ds, r) := takeDigits cs
        (c :: ds, r)
      else ([], c :: cs)

/-- The regex match of `datetime_from_iso` followed by `strptime`
validation; result in microseconds since the epoch. -/
def parseIso (cs : List Char) : Option Int := do
  let (y, cs) ← parseNDigits 4 cs
  let cs ← expectChar '-' cs
  let (mo, cs) ← parseNDigits 2 cs
  let cs ← expectChar '-' cs
  let (d, cs) ← parseNDigits 2 cs
  let cs ← match cs with
    | c :: rest => if c = 'T' ∨ c = ' ' then some rest else none
    | [] => none
  let (h, cs) ← parseNDigits 2 cs
  let cs ← expectChar ':' cs
  let (mi, cs) ← parseNDigits 2 cs
  let cs ← expectChar ':' cs
  let (se, cs) ← parseNDigits 2 cs
  -- optional fractional group `(\.\d+)?`; absent group gives micros ".0";
  -- more than 6 fractional digits fail strptime's `%f`
  let micro ← match cs with
    | '.' :: rest =>
        let ds := (takeDigits rest).1
        if ds.length = 0 then some 0
        else if ds.length ≤ 6 then some (digitsVal ds * 10 ^ (6 - ds.length))
        else none
    | _ => some 0
  if 1 ≤ y ∧ 1 ≤ mo ∧ mo ≤ 12 ∧ 1 ≤ d ∧ (d : Int) ≤ daysInMonth y mo ∧
      h ≤ 23 ∧ mi ≤ 59 ∧ se ≤ 59 then
    some ((daysFromCivil y mo d * 86400 + (h * 3600 + mi * 60 + se : Nat)) * 1000000 + micro)
  else none

/-- `datetime_from_iso(iso_date_time)` (lines 350-363): a failed regex
match raises, and out-of-range fields make `strptime` raise. -/
def datetime_from_iso (s : String) : Except PyErr Int :=
  match parseIso s.toList with
  | some us => .ok us
  | none => .error .valueError

/-- The value returned by `offset_date_time`: the naive local instant
with a `FixedOffset` tzinfo storing `offsetMinutes`. -/
structure AwareDT where
  usec : Int
  offsetMinutes : Int
deriving DecidableEq, Repr

/-- `offset_date_time(time_local, time_gmt)` (lines 340-348):
`offset = local_dt - gmt_dt`, and the minutes passed to `FixedOffset`
are `offset.seconds // 60`, where `.seconds` is the seconds-of-day
component of the floor-normalized Python `timedelta`
(`0 <= .seconds < 86400`). -/
def offset_date_time (time_local time_gmt : String) : Except PyErr AwareDT := do
  let l ← datetime_from_iso time_local
  let g ← datetime_from_iso time_gmt
  let delta := l - g
  let secondsComponent := (delta.fdiv 1000000) % 86400
  pure ⟨l, secondsComponent.fdiv 60⟩

/-! ## Filename sanitization (`export.py` lines 49 and 168-174) -/

/-- `VALID_FILENAME_CHARS = f"-_.() {string.ascii_letters}{string.digits}"`. -/
def VALID_FILENAME_CHARS : List Char :=
  ("-_.() " ++ "abcdefghijklmnopqrstuvwxyzABCDEFGHIJKLMNOPQRSTUVWXYZ"
    ++ "0123456789").toList

/-- `unicodedata.normalize(form, s)`: raises `ValueError` unless `form`
is one of the four Unicode normal forms; `impl` stands for the actual
normalization mapping (the claims below do not depend on it). -/
def unicodedata_normalize (impl : String → String → String) (form s : String) :
    Except PyErr String :=
  if form = "NFC" ∨ form = "NFKC" ∨ form = "NFD" ∨ form = "NFKD" then
    .ok (impl form s)
  else .error .valueError

/-- `sanitize_filename(name, max_length=0)` (lines 168-174).  The `name`
argument is an optional string (`None` and `''` are both falsy).  Note
the source passes the misspelled form `'NKFD'` to
`unicodedata.normalize`. -/
def sanitize_filename (impl : String → String → String) (name : Option String)
    (max_length : Nat) : Except PyErr String := do
  let truthyName : Bool := match name with
    | some s => s != ""
    | none => false
  let cleaned ← if truthyName then
      unicodedata_normalize impl "NKFD" (name.getD "")
    else pure ""
  let stripped := String.mk ((cleaned.toList.filter (· ∈ VALID_FILENAME_CHARS)).map
    (fun c => if c = ' ' then '_' else c))
  pure (if 0 < max_length then String.mk (stripped.toList.take max_length) else stripped)

/-! # Theorems about the claims -/

/-- C1.  The details fetch makes no second attempt: with a first response
whose `summaryDTO` is `null` (and perfectly good responses available for
the later attempts), `fetch_details` performs exactly one HTTP call and
returns the summary-less first response — instead of retrying up to 3
times and failing fatally.  The `return` at the end of the `while` body
(line 1045) is unconditional, so the loop never reaches a second
iteration and `tries` never reaches 0. -/
theorem fetch_details_no_retry_on_missing_summary :
    fetch_details (fun n =>
        if n = 0 then .dict [(.str "summaryDTO", .none_)]
        else .dict [(.str "summaryDTO", .dict [(.str "duration", .num 60)])])
      = .ok (.dict [(.str "summaryDTO", .none_)], 1)
    ∧ pyIndex (.dict [(.str "summaryDTO", PyVal.none_)]) (.str "summaryDTO")
      = .ok .none_ :=
  ⟨rfl, rfl⟩

/-- C2.  Building the CSV row is NOT tolerant of missing source fields:
for an activity with a well-formed `activityType` and details whose
non-empty `summaryDTO` merely lacks the `startLatitude` key, the very
first `from_activities_or_details` call of `csv_write_record` raises
`KeyError` (through `absent_or_null`, whose guard reads
`not act and element not in act` where the intended guard is `or`), so
the whole row fails instead of emitting nothing for that column. -/
theorem csv_write_record_raises_on_missing_field :
    csv_write_record ["startLatitude"] (.dict [])
      (.dict [(.str "activityId", .num 1),
        (.str "activityType", .dict [(.str "typeId", .num 1), (.str "parentTypeId", .num 1)])])
      (.dict [(.str "summaryDTO", .dict [(.str "distance", .num 5)])])
      (.dict []) (.dict []) = .error .keyError :=
  rfl

/-- C6 counterexample.  A malformed exclusion file does NOT leave the run
alive with an empty exclusion set: `read_exclude` returns `None` and
`main` (line 1092) then calls `sys.exit(1)`, so the run is aborted. -/
theorem mainExcludeGate_malformed_aborts :
    mainExcludeGate (some .malformed) = .error (.exit 1)
    ∧ mainExcludeGate (some .malformed) ≠ .ok (.list []) :=
  ⟨rfl, fun h => Except.noConfusion h⟩

/-- C6 amended.  Malformed JSON in the exclusion file makes
`read_exclude` print a diagnostic and return `None`, whereupon `main`
aborts the run with exit status 1 (no empty-exclusion fallback). -/
theorem read_exclude_malformed_exits_1 :
    read_exclude .malformed = .ok none
    ∧ mainExcludeGate (some .malformed) = .error (.exit 1) :=
  ⟨rfl, rfl⟩

/-- C8 counterexample.  For a local timestamp 2 hours BEHIND the GMT
timestamp the difference in whole minutes is `-120`, but
`offset_date_time` attaches `+1320`: `offset.seconds` of the normalized
Python `timedelta(-2h) = (-1 day, 79200 s)` is `79200`, and
`79200 // 60 = 1320`. -/
theorem offset_date_time_negative_counterexample :
    offset_date_time "2021-06-01 06:00:00" "2021-06-01 08:00:00"
      = .ok ⟨1622527200000000, 1320⟩
    ∧ (1320 : Int) ≠ -120 :=
  ⟨rfl, by decide⟩

/-- C9.  `sanitize_filename` fails on EVERY non-empty name, whatever the
actual Unicode normalization mapping and maximum length are:
`unicodedata.normalize` is called with the misspelled form `'NKFD'`
(instead of `'NFKD'`), which raises `ValueError`. -/
theorem sanitize_filename_raises_on_nonempty :
    ∀ (impl : String → String → String) (max_length : Nat),
      sanitize_filename impl (some "Morning Run") max_length = .error .valueError :=
  fun _ _ => rfl

/-- C9 witness: the failure at a fully concrete instantiation. -/
theorem sanitize_filename_raises_on_nonempty_witness :
    sanitize_filename (fun _ s => s) (some "Morning Run") 0 = .error .valueError :=
  sanitize_filename_raises_on_nonempty (fun _ s => s) 0

/-- C3 counterexample.  `load_zones` does not return a fresh array: after
a first call has filled zone 2, a second call whose response is EMPTY
still returns an array with zone 2 filled (the module-level list
`HR_ZONES_EMPTY` is aliased and was mutated by the first call), not the
all-null array the claim requires for an empty response. -/
theorem load_zones_empty_response_not_all_null :
    load_zones HR_ZONES_EMPTY
        [.dict [(.str "zoneNumber", .num 2), (.str "secsInZone", .num 60),
          (.str "zoneLowBoundary", .num 100)]]
      = .ok ([.none_,
          .dict [(.str "secsInZone", .num 60), (.str "zoneLowBoundary", .num 100)],
          .none_, .none_, .none_],
        [.none_,
          .dict [(.str "secsInZone", .num 60), (.str "zoneLowBoundary", .num 100)],
          .none_, .none_, .none_])
    ∧ load_zones
        [.none_,
          .dict [(.str "secsInZone", .num 60), (.str "zoneLowBoundary", .num 100)],
          .none_, .none_, .none_] []
      = .ok ([.none_,
          .dict [(.str "secsInZone", .num 60), (.str "zoneLowBoundary", .num 100)],
          .none_, .none_, .none_],
        [.none_,
          .dict [(.str "secsInZone", .num 60), (.str "zoneLowBoundary", .num 100)],
          .none_, .none_, .none_])
    ∧ [PyVal.none_,
        .dict [(.str "secsInZone", .num 60), (.str "zoneLowBoundary", .num 100)],
        .none_, .none_, .none_] ≠ HR_ZONES_EMPTY :=
  ⟨rfl, rfl, by simp [HR_ZONES_EMPTY]⟩

/-- `main` line 1200: `extract['hrZones'] = HR_ZONES_EMPTY` — the
controller's default hrZones value is (a reference to) the module-level
list in its current state. -/
def mainDefaultHrZones (hrZonesState : List PyVal) : List PyVal := hrZonesState

/-- C10.  `load_zones` hands back the module-level list itself, mutated
in place: the returned array always coincides with the module state after
the call; a slot filled while processing one activity (zone 3 here) is
still present in the array returned for a later activity whose own
response is empty, and in the controller's default hrZones value. -/
theorem load_zones_module_state_persists :
    load_zones HR_ZONES_EMPTY
        [.dict [(.str "zoneNumber", .num 3), (.str "secsInZone", .num 45),
          (.str "zoneLowBoundary", .num 130)]]
      = .ok ([.none_, .none_,
          .dict [(.str "secsInZone", .num 45), (.str "zoneLowBoundary", .num 130)],
          .none_, .none_],
        [.none_, .none_,
          .dict [(.str "secsInZone", .num 45), (.str "zoneLowBoundary", .num 130)],
          .none_, .none_])
    ∧ load_zones
        [.none_, .none_,
          .dict [(.str "secsInZone", .num 45), (.str "zoneLowBoundary", .num 130)],
          .none_, .none_] []
      = .ok ([.none_, .none_,
          .dict [(.str "secsInZone", .num 45), (.str "zoneLowBoundary", .num 130)],
          .none_, .none_],
        [.none_, .none_,
          .dict [(.str "secsInZone", .num 45), (.str "zoneLowBoundary", .num 130)],
          .none_, .none_])
    ∧ mainDefaultHrZones
        [.none_, .none_,
          .dict [(.str "secsInZone", .num 45), (.str "zoneLowBoundary", .num 130)],
          .none_, .none_]
      = [.none_, .none_,
          .dict [(.str "secsInZone", .num 45), (.str "zoneLowBoundary", .num 130)],
          .none_, .none_]
    ∧ [PyVal.none_, .none_,
        .dict [(.str "secsInZone", .num 45), (.str "zoneLowBoundary", .num 130)],
        .none_, .none_] ≠ HR_ZONES_EMPTY :=
  ⟨rfl, rfl, rfl, by simp [HR_ZONES_EMPTY]⟩

/-! ### C4: the download-ledger invariant -/

theorem pyEq_str (a b : String) : pyEq (.str a) (.str b) = decide (a = b) := by
  simp [pyEq]

theorem any_pyEq_map_str (l : List String) (a : String) :
    (l.map PyVal.str).any (fun e => pyEq e (.str a)) = decide (a ∈ l) := by
  induction l with
  | nil => simp
  | cons b t ih =>
      simp only [List.map_cons, List.any_cons, ih, pyEq_str]
      by_cases h : b = a
      · subst h; simp
      · simp [h, Ne.symm h]

theorem allStrings_map_str (l : List String) : allStrings (l.map .str) = some l := by
  induction l with
  | nil => rfl
  | cons b t ih => simp [allStrings, ih]

theorem allStrings_map_str_append (l : List String) (a : String) :
    allStrings (l.map .str ++ [.str a]) = some (l ++ [a]) := by
  rw [show [PyVal.str a] = [a].map .str from rfl, ← List.map_append, allStrings_map_str]

theorem except_ok_bind {α β : Type} (a : α) (f : α → Except PyErr β) :
    (Except.ok a >>= f : Except PyErr β) = f a := rfl

/-- One update on a well-shaped stored ledger: an already-present id
leaves the file untouched, a new id is appended and the list re-sorted. -/
theorem update_download_stats_stored (a : String) (l : List String) :
    update_download_stats a (.stored (mkLedger l)) =
      .ok (.stored (mkLedger
        (if a ∈ l then l else List.insertionSort (· ≤ ·) (l ++ [a])))) := by
  by_cases h : a ∈ l
  · simp [update_download_stats, mkLedger, pyIndex, entriesGet?, pyContains,
      any_pyEq_map_str, pyEq_str, h, except_ok_bind]
  · simp [update_download_stats, mkLedger, pyIndex, entriesGet?, pyContains,
      any_pyEq_map_str, pyEq_str, h, pyAppend, pySortList, entriesSet,
      allStrings_map_str_append, except_ok_bind]

theorem goodLedger_mkLedger (l : List String) :
    goodLedger (.stored (mkLedger l)) =
      (decide (l.Sorted (· ≤ ·)) && decide l.Nodup) := by
  simp [goodLedger, mkLedger, allStrings_map_str]

theorem runUpdates_stored_good (seq : List String) :
    ∀ l : List String, List.Sorted (· ≤ ·) l → l.Nodup →
      ledgerOkGood (runUpdates (.stored (mkLedger l)) seq) = true := by
  induction seq with
  | nil =>
      intro l hs hn
      have hgood : goodLedger (.stored (mkLedger l)) = true := by
        rw [goodLedger_mkLedger]
        simp only [Bool.and_eq_true, decide_eq_true_eq]
        exact ⟨hs, hn⟩
      simpa [runUpdates, ledgerOkGood] using hgood
  | cons a rest ih =>
      intro l hs hn
      have hstep := update_download_stats_stored a l
      by_cases h : a ∈ l
      · rw [if_pos h] at hstep
        simp only [runUpdates, hstep, except_ok_bind]
        exact ih l hs hn
      · rw [if_neg h] at hstep
        simp only [runUpdates, hstep, except_ok_bind]
        have hsort : List.Sorted (· ≤ ·) (List.insertionSort (· ≤ ·) (l ++ [a])) :=
          List.sorted_insertionSort _ _
        have hperm : List.Perm (List.insertionSort (· ≤ ·) (l ++ [a])) (l ++ [a]) :=
          List.perm_insertionSort _ _
        have hnodup : (List.insertionSort (· ≤ ·) (l ++ [a])).Nodup := by
          refine hperm.symm.nodup ?_
          simp [List.nodup_append, hn, h]
        exact ih _ hsort hnodup

/-- Updating a missing or malformed ledger file installs a fresh
single-id ledger. -/
theorem update_download_stats_fresh (a : String) :
    update_download_stats a .missing = .ok (.stored (mkLedger [a]))
    ∧ update_download_stats a .malformed = .ok (.stored (mkLedger [a])) :=
  ⟨rfl, rfl⟩

/-- C4.  Starting from a missing or malformed ledger file, any non-empty
sequence of `update_download_stats` calls — duplicates included —
succeeds at every call, and the persisted `ids` list is duplicate-free
and sorted ascending. -/
theorem update_download_stats_ledger_invariant
    (seq : List String) (st0 : LedgerFile)
    (h0 : st0 = .missing ∨ st0 = .malformed) (hne : seq ≠ []) :
    ledgerOkGood (runUpdates st0 seq) = true := by
  cases seq with
  | nil => exact absurd rfl hne
  | cons a rest =>
      have hbase : update_download_stats a st0 = .ok (.stored (mkLedger [a])) := by
        cases h0 with
        | inl h => rw [h]; exact (update_download_stats_fresh a).1
        | inr h => rw [h]; exact (update_download_stats_fresh a).2
      simp only [runUpdates, hbase, Except.bind]
      exact runUpdates_stored_good rest [a] (List.sorted_singleton a) (List.nodup_singleton a)

/-- C4 witness: three updates (the first id repeated) from a missing
file; the final ledger is sorted and duplicate-free and no call failed. -/
theorem update_download_stats_ledger_invariant_witness :
    ledgerOkGood (runUpdates .missing ["2152", "1001", "2152"]) = true :=
  update_download_stats_ledger_invariant ["2152", "1001", "2152"] .missing
    (Or.inl rfl) (by simp)

/-! ### C7: annotation of the activity list -/

/-- Spec-side action assignment, following the claim's words: at 0-based
position `i`, skip when `i < start - 1`, otherwise exclude when the
entry's activity-ID string is in the exclusion set, otherwise
download. -/
def annotate_action_spec (start : Int) (excl : List String) (i : Nat)
    (idStr : String) : Char :=
  if (i : Int) < start - 1 then 's'
  else if idStr ∈ excl then 'e' else 'd'

/-- The activity-ID string of an entry (meaningful when the
`activityId` key is present). -/
def idStrOf (a : PyVal) : String :=
  match pyIndex a (.str "activityId") with
  | .ok v => pyStrOf v
  | .error _ => ""

theorem annotate_go_spec (start : Int) (excl : List String) :
    ∀ (l : List PyVal) (i : Nat),
      (∀ a ∈ l, ∃ v, pyIndex a (.str "activityId") = .ok v) →
      annotate_go start (.list (excl.map .str)) i l =
        .ok ((List.enumFrom i l).map
          (fun p => (p.1, annotate_action_spec start excl p.1 (idStrOf p.2), p.2))) := by
  intro l
  induction l with
  | nil => intro i _; rfl
  | cons a rest ih =>
      intro i h
      obtain ⟨v, hv⟩ := h a (List.mem_cons_self a rest)
      have hrest := ih (i + 1) (fun b hb => h b (List.mem_cons_of_mem a hb))
      by_cases hc : (i : Int) < start - 1
      · simp [annotate_go, hc, hrest, except_ok_bind, annotate_action_spec,
          List.enumFrom]
      · have hid : idStrOf a = pyStrOf v := by simp [idStrOf, hv]
        simp [annotate_go, hc, hv, hrest, except_ok_bind, pyContains,
          any_pyEq_map_str, annotate_action_spec, hid, List.enumFrom]

/-- C7.  Whenever every entry carries an `activityId`,
`annotate_activity_list` assigns exactly the claimed action to every
position: skip below the 1-based start index, else exclude when the ID
string is in the exclusion set, else download — entries and indices kept
intact. -/
theorem annotate_activity_list_spec (activities : List PyVal) (start : Int)
    (excl : List String)
    (h : ∀ a ∈ activities, ∃ v, pyIndex a (.str "activityId") = .ok v) :
    annotate_activity_list activities start (.list (excl.map .str)) =
      .ok ((List.enumFrom 0 activities).map
        (fun p => (p.1, annotate_action_spec start excl p.1 (idStrOf p.2), p.2))) :=
  annotate_go_spec start excl activities 0 h

/-- C7 witness: exclusion set containing the string 123 with start index
1 on IDs [100, 123, 200] yields download, exclude, download. -/
theorem annotate_activity_list_spec_witness :
    annotate_activity_list
        [.dict [(.str "activityId", .num 100)],
         .dict [(.str "activityId", .num 123)],
         .dict [(.str "activityId", .num 200)]] 1 (.list [.str "123"]) =
      .ok [(0, 'd', .dict [(.str "activityId", .num 100)]),
           (1, 'e', .dict [(.str "activityId", .num 123)]),
           (2, 'd', .dict [(.str "activityId", .num 200)])] := by
  have h := annotate_activity_list_spec
    [.dict [(.str "activityId", .num 100)],
     .dict [(.str "activityId", .num 123)],
     .dict [(.str "activityId", .num 200)]] 1 ["123"]
    (by
      intro a ha
      fin_cases ha
      · exact ⟨.num 100, rfl⟩
      · exact ⟨.num 123, rfl⟩
      · exact ⟨.num 200, rfl⟩)
  exact h.trans (by rfl)

/-! ### C8: the offset actually attached by offset_date_time -/

/-- C8 amended.  For well-formed timestamps, the fixed offset attached to
the local instant is `timedelta(local - gmt).seconds // 60`, i.e. the
difference reduced modulo 24 hours into `[0, 1440)` minutes; whenever the
local instant is at or after the GMT instant by less than 24 hours this
IS the difference in whole minutes, `(local - gmt) // 60_000_000` µs. -/
theorem offset_date_time_offset_formula (tl tg : String) (l g : Int)
    (hl : datetime_from_iso tl = .ok l) (hg : datetime_from_iso tg = .ok g)
    (h0 : 0 ≤ l - g) (h24 : l - g < 86400 * 1000000) :
    offset_date_time tl tg = .ok ⟨l, (l - g).fdiv 60000000⟩ := by
  simp only [offset_date_time, hl, hg, except_ok_bind]
  rw [Int.fdiv_eq_ediv _ (by norm_num), Int.fdiv_eq_ediv _ (by norm_num),
    Int.fdiv_eq_ediv _ (by norm_num)]
  have harith : ((l - g) / 1000000 % 86400) / 60 = (l - g) / 60000000 := by
    omega
  rw [harith]
  rfl

/-- C8 witness: local 08:00:00 with GMT 06:00:00 on 2021-06-01 gives a
fixed offset of +120 minutes. -/
theorem offset_date_time_offset_formula_witness :
    offset_date_time "2021-06-01 08:00:00" "2021-06-01 06:00:00"
      = .ok ⟨1622534400000000, 120⟩ :=
  offset_date_time_offset_formula _ _ 1622534400000000 1622527200000000
    rfl rfl (by norm_num) (by norm_num)

/-! ### C3: load_zones against the spec, relative to the initial state -/

/-- Total dict lookup helper (spec side). -/
def dictGet? (v : PyVal) (k : String) : Option PyVal :=
  match v with
  | .dict d => entriesGet? d (.str k)
  | _ => none

/-- The zone number of a raw response entry, when it is a number. -/
def zoneNumOf (rz : PyVal) : Option Int :=
  match dictGet? rz "zoneNumber" with
  | some (.num k) => some k
  | _ => none

/-- The `{secsInZone, zoneLowBoundary}` pair built from a response
entry. -/
def mkZoneDict (rz : PyVal) : PyVal :=
  .dict [(.str "secsInZone", (dictGet? rz "secsInZone").getD .none_),
         (.str "zoneLowBoundary", (dictGet? rz "zoneLowBoundary").getD .none_)]

/-- The slot for zone number `zn`: filled from the response entry with
that zone number, else the default. -/
def ovSlot (dflt : PyVal) (zn : Int) (resp : List PyVal) : PyVal :=
  match resp.find? (fun rz => zoneNumOf rz == some zn) with
  | some rz => mkZoneDict rz
  | none => dflt

/-- Spec-side array following the claim's words: a 5-slot array indexed
by zoneNumber minus one in which exactly the zone numbers occurring in
the response are filled with their `{lowBoundary, secondsInZone}` data
and all other slots are null. -/
def zonesSpec (resp : List PyVal) : List PyVal :=
  [ovSlot .none_ 1 resp, ovSlot .none_ 2 resp, ovSlot .none_ 3 resp,
   ovSlot .none_ 4 resp, ovSlot .none_ 5 resp]

/-- The shape of one entry of the zones payload. -/
def rawZone (k : Int) (s lo : PyVal) : PyVal :=
  .dict [(.str "zoneNumber", .num k), (.str "secsInZone", s),
    (.str "zoneLowBoundary", lo)]

/-- A well-formed raw zone entry: the three keys of the zones payload
with a numeric `zoneNumber` between 1 and 5. -/
def rawZoneWF (rz : PyVal) : Prop :=
  ∃ k s lo, rz = rawZone k s lo ∧ 1 ≤ k ∧ k ≤ 5

theorem ovSlot_cons_ne (dflt : PyVal) (zn : Int) (rz : PyVal) (rest : List PyVal)
    (h : (zoneNumOf rz == some zn) = false) :
    ovSlot dflt zn (rz :: rest) = ovSlot dflt zn rest := by
  simp only [ovSlot, List.find?_cons, h]

theorem ovSlot_cons_hit (dflt : PyVal) (zn : Int) (rz : PyVal) (rest : List PyVal)
    (h : (zoneNumOf rz == some zn) = true) :
    ovSlot dflt zn (rz :: rest) = mkZoneDict rz := by
  simp only [ovSlot, List.find?_cons, h]

theorem ovSlot_of_none (dflt : PyVal) (zn : Int) (rest : List PyVal)
    (h : ∀ x ∈ rest, (zoneNumOf x == some zn) = false) :
    ovSlot dflt zn rest = dflt := by
  have : rest.find? (fun rz => zoneNumOf rz == some zn) = none :=
    List.find?_eq_none.mpr (by intro x hx; simp [h x hx])
  simp only [ovSlot, this]

theorem load_zones_go_spec (resp : List PyVal) :
    ∀ z0 z1 z2 z3 z4 : PyVal,
      (∀ rz ∈ resp, rawZoneWF rz) →
      List.Pairwise (fun x y => zoneNumOf x ≠ zoneNumOf y) resp →
      load_zones_go [z0, z1, z2, z3, z4] resp =
        .ok [ovSlot z0 1 resp, ovSlot z1 2 resp, ovSlot z2 3 resp,
             ovSlot z3 4 resp, ovSlot z4 5 resp] := by
  induction resp with
  | nil => intro z0 z1 z2 z3 z4 _ _; rfl
  | cons rz rest ih =>
      intro z0 z1 z2 z3 z4 hwf hpw
      obtain ⟨k, s, lo, hrz, hk1, hk5⟩ := hwf rz (List.mem_cons_self rz rest)
      subst hrz
      have hwf' : ∀ x ∈ rest, rawZoneWF x :=
        fun x hx => hwf x (List.mem_cons_of_mem _ hx)
      have hpw' := (List.pairwise_cons.mp hpw).2
      have hhead : ∀ x ∈ rest, zoneNumOf x ≠ some k := by
        intro x hx
        have hne : zoneNumOf (rawZone k s lo) ≠ zoneNumOf x :=
          (List.pairwise_cons.mp hpw).1 x hx
        exact fun he => hne (by
          simpa [zoneNumOf, rawZone, dictGet?, entriesGet?, pyEq] using he.symm)
      interval_cases k
      · -- zoneNumber 1
        have hnone : ∀ x ∈ rest, (zoneNumOf x == some 1) = false := by
          intro x hx
          simpa [beq_eq_false_iff_ne] using hhead x hx
        have h1 : load_zones_go [z0, z1, z2, z3, z4] (rawZone 1 s lo :: rest)
          = load_zones_go
              [.dict [(.str "secsInZone", s), (.str "zoneLowBoundary", lo)],
                z1, z2, z3, z4] rest := rfl
        rw [h1, ih _ _ _ _ _ hwf' hpw',
          ovSlot_cons_hit z0 1 (rawZone 1 s lo) rest rfl,
          ovSlot_cons_ne z1 2 (rawZone 1 s lo) rest rfl,
          ovSlot_cons_ne z2 3 (rawZone 1 s lo) rest rfl,
          ovSlot_cons_ne z3 4 (rawZone 1 s lo) rest rfl,
          ovSlot_cons_ne z4 5 (rawZone 1 s lo) rest rfl,
          ovSlot_of_none (.dict [(.str "secsInZone", s), (.str "zoneLowBoundary", lo)])
            1 rest hnone]
        rfl
      · -- zoneNumber 2
        have hnone : ∀ x ∈ rest, (zoneNumOf x == some 2) = false := by
          intro x hx
          simpa [beq_eq_false_iff_ne] using hhead x hx
        have h1 : load_zones_go [z0, z1, z2, z3, z4] (rawZone 2 s lo :: rest)
          = load_zones_go
              [z0, .dict [(.str "secsInZone", s), (.str "zoneLowBoundary", lo)],
                z2, z3, z4] rest := rfl
        rw [h1, ih _ _ _ _ _ hwf' hpw',
          ovSlot_cons_hit z1 2 (rawZone 2 s lo) rest rfl,
          ovSlot_cons_ne z0 1 (rawZone 2 s lo) rest rfl,
          ovSlot_cons_ne z2 3 (rawZone 2 s lo) rest rfl,
          ovSlot_cons_ne z3 4 (rawZone 2 s lo) rest rfl,
          ovSlot_cons_ne z4 5 (rawZone 2 s lo) rest rfl,
          ovSlot_of_none (.dict [(.str "secsInZone", s), (.str "zoneLowBoundary", lo)])
            2 rest hnone]
        rfl
      · -- zoneNumber 3
        have hnone : ∀ x ∈ rest, (zoneNumOf x == some 3) = false := by
          intro x hx
          simpa [beq_eq_false_iff_ne] using hhead x hx
        have h1 : load_zones_go [z0, z1, z2, z3, z4] (rawZone 3 s lo :: rest)
          = load_zones_go
              [z0, z1, .dict [(.str "secsInZone", s), (.str "zoneLowBoundary", lo)],
                z3, z4] rest := rfl
        rw [h1, ih _ _ _ _ _ hwf' hpw',
          ovSlot_cons_hit z2 3 (rawZone 3 s lo) rest rfl,
          ovSlot_cons_ne z0 1 (rawZone 3 s lo) rest rfl,
          ovSlot_cons_ne z1 2 (rawZone 3 s lo) rest rfl,
          ovSlot_cons_ne z3 4 (rawZone 3 s lo) rest rfl,
          ovSlot_cons_ne z4 5 (rawZone 3 s lo) rest rfl,
          ovSlot_of_none (.dict [(.str "secsInZone", s), (.str "zoneLowBoundary", lo)])
            3 rest hnone]
        rfl
      · -- zoneNumber 4
        have hnone : ∀ x ∈ rest, (zoneNumOf x == some 4) = false := by
          intro x hx
          simpa [beq_eq_false_iff_ne] using hhead x hx
        have h1 : load_zones_go [z0, z1, z2, z3, z4] (rawZone 4 s lo :: rest)
          = load_zones_go
              [z0, z1, z2, .dict [(.str "secsInZone", s), (.str "zoneLowBoundary", lo)],
                z4] rest := rfl
        rw [h1, ih _ _ _ _ _ hwf' hpw',
          ovSlot_cons_hit z3 4 (rawZone 4 s lo) rest rfl,
          ovSlot_cons_ne z0 1 (rawZone 4 s lo) rest rfl,
          ovSlot_cons_ne z1 2 (rawZone 4 s lo) rest rfl,
          ovSlot_cons_ne z2 3 (rawZone 4 s lo) rest rfl,
          ovSlot_cons_ne z4 5 (rawZone 4 s lo) rest rfl,
          ovSlot_of_none (.dict [(.str "secsInZone", s), (.str "zoneLowBoundary", lo)])
            4 rest hnone]
        rfl
      · -- zoneNumber 5
        have hnone : ∀ x ∈ rest, (zoneNumOf x == some 5) = false := by
          intro x hx
          simpa [beq_eq_false_iff_ne] using hhead x hx
        have h1 : load_zones_go [z0, z1, z2, z3, z4] (rawZone 5 s lo :: rest)
          = load_zones_go
              [z0, z1, z2, z3,
                .dict [(.str "secsInZone", s), (.str "zoneLowBoundary", lo)]] rest := rfl
        rw [h1, ih _ _ _ _ _ hwf' hpw',
          ovSlot_cons_hit z4 5 (rawZone 5 s lo) rest rfl,
          ovSlot_cons_ne z0 1 (rawZone 5 s lo) rest rfl,
          ovSlot_cons_ne z1 2 (rawZone 5 s lo) rest rfl,
          ovSlot_cons_ne z2 3 (rawZone 5 s lo) rest rfl,
          ovSlot_cons_ne z3 4 (rawZone 5 s lo) rest rfl,
          ovSlot_of_none (.dict [(.str "secsInZone", s), (.str "zoneLowBoundary", lo)])
            5 rest hnone]
        rfl

/-- C3 amended.  When the shared module-level array is still in its
initial all-null state (in particular, on the FIRST `load_zones` call of
a run), the returned 5-slot array has exactly the response's zone
numbers filled with their `{lowBoundary, secondsInZone}` data, all other
slots null; an empty response yields the all-null array and no call
fails. -/
theorem load_zones_first_call_spec (resp : List PyVal)
    (hwf : ∀ rz ∈ resp, rawZoneWF rz)
    (hdist : List.Pairwise (fun x y => zoneNumOf x ≠ zoneNumOf y) resp) :
    load_zones HR_ZONES_EMPTY resp = .ok (zonesSpec resp, zonesSpec resp) := by
  cases resp with
  | nil => rfl
  | cons rz rest =>
      have h := load_zones_go_spec (rz :: rest) .none_ .none_ .none_ .none_ .none_
        hwf hdist
      simp only [load_zones, HR_ZONES_EMPTY, List.isEmpty_cons, Bool.false_eq_true,
        if_false, h, except_ok_bind, zonesSpec]

/-- C3 witness: a first call whose response holds zones 2 and 4 fills
exactly slots 2 and 4. -/
theorem load_zones_first_call_spec_witness :
    load_zones HR_ZONES_EMPTY
        [.dict [(.str "zoneNumber", .num 2), (.str "secsInZone", .num 60),
           (.str "zoneLowBoundary", .num 100)],
         .dict [(.str "zoneNumber", .num 4), (.str "secsInZone", .num 30),
           (.str "zoneLowBoundary", .num 140)]]
      = .ok ([.none_,
          .dict [(.str "secsInZone", .num 60), (.str "zoneLowBoundary", .num 100)],
          .none_,
          .dict [(.str "secsInZone", .num 30), (.str "zoneLowBoundary", .num 140)],
          .none_],
        [.none_,
          .dict [(.str "secsInZone", .num 60), (.str "zoneLowBoundary", .num 100)],
          .none_,
          .dict [(.str "secsInZone", .num 30), (.str "zoneLowBoundary", .num 140)],
          .none_]) := by
  have h := load_zones_first_call_spec
    [.dict [(.str "zoneNumber", .num 2), (.str "secsInZone", .num 60),
       (.str "zoneLowBoundary", .num 100)],
     .dict [(.str "zoneNumber", .num 4), (.str "secsInZone", .num 30),
       (.str "zoneLowBoundary", .num 140)]]
    (by
      intro rz hrz
      fin_cases hrz
      · exact ⟨2, .num 60, .num 100, rfl, by decide, by decide⟩
      · exact ⟨4, .num 30, .num 140, rfl, by decide, by decide⟩)
    (by
      constructor
      · intro x hx
        rw [List.mem_singleton] at hx
        subst hx
        decide
      · exact List.pairwise_singleton _ _)
  exact h.trans (by rfl)

/-! ### C5: multisport expansion ordering -/

/-- A summary whose type key resolves without error and is not the
multisport marker. -/
def nonMultiSummary (s : PyVal) : Prop :=
  ∃ v, summaryTypeKey s = .ok v ∧ pyEq v (.str "multi_sport") = false

theorem fetch_multisports_go_skip (resp : PyVal → Nat → PyVal) :
    ∀ (l : List PyVal) (fuel : Nat) (acc tail : List PyVal),
      (∀ s ∈ l, nonMultiSummary s) → l.length ≤ fuel →
      fetch_multisports_go resp fuel acc (l ++ tail) =
        fetch_multisports_go resp (fuel - l.length) (l.reverse ++ acc) tail := by
  intro l
  induction l with
  | nil => intro fuel acc tail _ _; simp
  | cons s l' ih =>
      intro fuel acc tail h hfuel
      obtain ⟨f, rfl⟩ : ∃ f, fuel = f + 1 := by
        cases fuel with
        | zero => exact absurd hfuel (by simp)
        | succ f => exact ⟨f, rfl⟩
      obtain ⟨v, hv, hvne⟩ := h s (List.mem_cons_self s l')
      have hstep : fetch_multisports_go resp (f + 1) acc ((s :: l') ++ tail) =
          fetch_multisports_go resp f (s :: acc) (l' ++ tail) := by
        simp only [List.cons_append, fetch_multisports_go, hv, except_ok_bind, hvne,
          Bool.false_eq_true, if_false]
        rfl
      rw [hstep, ih f (s :: acc) tail (fun x hx => h x (List.mem_cons_of_mem s hx))
        (by simpa using Nat.lt_succ_iff.mp (Nat.lt_succ_of_le hfuel))]
      have h2 : f + 1 - (s :: l').length = f - l'.length := by simp
      have h3 : (s :: l').reverse ++ acc = l'.reverse ++ s :: acc := by simp
      rw [h2, h3]

theorem fetch_multisports_go_all (resp : PyVal → Nat → PyVal)
    (l : List PyVal) (fuel : Nat) (acc : List PyVal)
    (h : ∀ s ∈ l, nonMultiSummary s) (hfuel : l.length ≤ fuel) :
    fetch_multisports_go resp fuel acc l = .ok (acc.reverse ++ l) := by
  have := fetch_multisports_go_skip resp l fuel acc [] h hfuel
  rw [List.append_nil] at this
  rw [this]
  simp [fetch_multisports_go]

/-- C5.  A page consisting of non-multisport entries around one
multisport parent whose details list the child IDs `[a, b, c]` is left,
after expansion, as `pre ++ parent :: childA :: childB :: childC :: rest`:
the synthesized child summaries sit immediately after the parent in the
original child order, everything else in place. -/
theorem fetch_multisports_ordering (resp : PyVal → Nat → PyVal)
    (pre rest : List PyVal) (parent pid pd sa sb sc a b c : PyVal) (fuel : Nat)
    (hpre : ∀ s ∈ pre, nonMultiSummary s)
    (hrest : ∀ s ∈ rest, nonMultiSummary s)
    (hparent : summaryTypeKey parent = .ok (.str "multi_sport"))
    (hpid : pyIndex parent (.str "activityId") = .ok pid)
    (hfetch : fetch_details (resp pid) = .ok (pd, 1))
    (hcids : childIdsOf pd = .ok (.list [a, b, c]))
    (hsa : synthChild resp a = .ok sa)
    (hsb : synthChild resp b = .ok sb)
    (hsc : synthChild resp c = .ok sc)
    (hna : nonMultiSummary sa) (hnb : nonMultiSummary sb) (hnc : nonMultiSummary sc)
    (hfuel : pre.length + rest.length + 4 ≤ fuel) :
    fetch_multisports resp fuel (pre ++ parent :: rest) =
      .ok (pre ++ parent :: sa :: sb :: sc :: rest) := by
  unfold fetch_multisports
  rw [fetch_multisports_go_skip resp pre fuel [] (parent :: rest) hpre (by omega)]
  obtain ⟨f, hf⟩ : ∃ f, fuel - pre.length = f + 1 := ⟨fuel - pre.length - 1, by omega⟩
  rw [hf]
  have hins : insertChildren resp ([a, b, c].reverse) rest = .ok (sa :: sb :: sc :: rest) := by
    simp [insertChildren, hsa, hsb, hsc, except_ok_bind, List.insertIdx]
  have hstep : fetch_multisports_go resp (f + 1) (pre.reverse ++ []) (parent :: rest) =
      fetch_multisports_go resp f (parent :: (pre.reverse ++ [])) (sa :: sb :: sc :: rest) := by
    simp only [fetch_multisports_go, hparent, except_ok_bind,
      show pyEq (PyVal.str "multi_sport") (.str "multi_sport") = true from rfl, if_true,
      hpid, hfetch, hcids, hins]
  rw [hstep]
  rw [fetch_multisports_go_all resp _ f _
    (by
      intro x hx
      simp only [List.mem_cons] at hx
      rcases hx with rfl | rfl | rfl | hx
      · exact hna
      · exact hnb
      · exact hnc
      · exact hrest x hx)
    (by
      simp only [List.length_cons]
      omega)]
  simp

/-- Concrete child details for the C5 witness run. -/
def msChildDetails (n : Int) : PyVal :=
  .dict [(.str "activityId", .num n),
    (.str "activityName", .str "leg"),
    (.str "description", .str "part"),
    (.str "activityTypeDTO", .dict [(.str "typeId", .num 1),
      (.str "typeKey", .str "running"), (.str "parentTypeId", .num 17)]),
    (.str "eventType", .dict [(.str "typeKey", .str "race")]),
    (.str "summaryDTO", .dict [(.str "startTimeLocal", .str "2021-06-01 08:00:00"),
      (.str "startTimeGMT", .str "2021-06-01 06:00:00"), (.str "duration", .num 60),
      (.str "distance", .num 100), (.str "averageSpeed", .num 2),
      (.str "maxHR", .num 150), (.str "averageHR", .num 120)]),
    (.str "metadataDTO", .dict [(.str "elevationCorrected", .bool false)])]

/-- Concrete parent details for the C5 witness run: child IDs 11, 12, 13. -/
def msParentDetails : PyVal :=
  .dict [(.str "summaryDTO", .dict [(.str "duration", .num 180)]),
    (.str "metadataDTO", .dict [(.str "childIds", .list [.num 11, .num 12, .num 13])])]

/-- Concrete HTTP responses for the C5 witness run, keyed by activity id. -/
def msResp : PyVal → Nat → PyVal := fun aid _ =>
  if pyEq aid (.num 10) then msParentDetails
  else if pyEq aid (.num 11) then msChildDetails 11
  else if pyEq aid (.num 12) then msChildDetails 12
  else msChildDetails 13

/-- The multisport parent summary of the C5 witness page. -/
def msParent : PyVal :=
  .dict [(.str "activityId", .num 10),
    (.str "activityType", .dict [(.str "typeKey", .str "multi_sport")])]

/-- The single non-multisport entry after the parent on the C5 witness
page. -/
def msOther : PyVal :=
  .dict [(.str "activityId", .num 99),
    (.str "activityType", .dict [(.str "typeKey", .str "cycling")])]

/-- The summary synthesized by `copy_details_to_summary` from
`msChildDetails n`. -/
def msChildSummary (n : Int) : PyVal :=
  .dict [(.str "activityId", .num n),
    (.str "activityName", .str "leg"),
    (.str "description", .str "part"),
    (.str "activityType", .dict [(.str "typeId", .num 1),
      (.str "typeKey", .str "running"), (.str "parentTypeId", .num 17)]),
    (.str "eventType", .dict [(.str "typeKey", .str "race")]),
    (.str "startTimeLocal", .str "2021-06-01 08:00:00"),
    (.str "startTimeGMT", .str "2021-06-01 06:00:00"),
    (.str "duration", .num 60),
    (.str "distance", .num 100),
    (.str "averageSpeed", .num 2),
    (.str "maxHR", .num 150),
    (.str "averageHR", .num 120),
    (.str "elevationCorrected", .bool false)]

/-- C5 witness: a page `[parent, other]` with child IDs `[11, 12, 13]`
expands to `[parent, child11, child12, child13, other]`. -/
theorem fetch_multisports_ordering_witness :
    fetch_multisports msResp 5 [msParent, msOther]
      = .ok [msParent, msChildSummary 11, msChildSummary 12,
          msChildSummary 13, msOther] :=
  fetch_multisports_ordering msResp [] [msOther] msParent (.num 10) msParentDetails
    (msChildSummary 11) (msChildSummary 12) (msChildSummary 13)
    (.num 11) (.num 12) (.num 13) 5
    (by intro s hs; exact absurd hs (List.not_mem_nil s))
    (by
      intro s hs
      rw [List.mem_singleton] at hs
      subst hs
      exact ⟨.str "cycling", rfl, rfl⟩)
    rfl rfl rfl rfl rfl rfl rfl
    ⟨.str "running", rfl, rfl⟩ ⟨.str "running", rfl, rfl⟩ ⟨.str "running", rfl, rfl⟩
    (by simp)

end GarminExport
